import Mathlib

/-!
Shallow embedding of `src/data/pygbutton.py` (PygButton v0.1.0).

The module implements a single UI button class `PygButton`.  We embed its
state as a Lean structure and its methods as pure state-passing functions.

Modelling conventions, stated once here:

* A pygame `Surface` is modelled by its size together with an abstract
  pixel-content token (`PixelContent`).  `pygame.transform.smoothscale`
  keeps the content token (the result is "this content at that size"), and
  the text-mode drawing code of `_update` (fill, caption blit, bevel lines)
  is modelled as replacing the content token by a `textButtonFace` token
  recording every datum the drawing depends on; sizes of the drawn-on
  surfaces are unchanged, exactly as in pygame where `fill`/`blit`/`draw`
  mutate pixels in place.
* A pygame event is a record with a `type` and a `pos`; event kinds other
  than the three mouse kinds are collapsed into `EventType.other` (the code
  returns before ever reading `pos` of such an event).
* `pygame.image.load` is an external effect; the embedding takes the
  loader as an explicit function argument `load : String -> Surface`.
* Python exceptions become an `Option PyError` result paired with the
  state of the object at the moment of the raise (attribute assignments
  made before the raise are kept, as in Python).  `Exception('foo')` in
  `set_surfaces` is the size-mismatch error; reading a never-assigned
  attribute (`origSurfaceNormal` etc.) is `attributeError`.
* The source calls `self._rect.collidepoint(event_obj.pos)` three times in
  `handle_event` with unchanged arguments; the embedding computes the
  boolean once into `inside`.
-/

/-- An RGB colour triple. -/
abbrev Color := Nat × Nat × Nat

def BLACK : Color := (0, 0, 0)

def WHITE : Color := (255, 255, 255)

def DARKGRAY : Color := (64, 64, 64)

def GRAY : Color := (128, 128, 128)

def LIGHTGRAY : Color := (212, 208, 200)

/-- Abstract font handle; `PYGBUTTON_FONT` is the module-level default. -/
def PYGBUTTON_FONT : Nat := 0

/-- Abstract pixel content of a surface: blank (fresh `pygame.Surface`),
a loaded image identified by a token, or the face drawn by the text-mode
branch of `_update` (fill + centred caption + bevel borders), recording the
caption, colours, font and the rect width/height used while drawing. -/
inductive PixelContent
  | blank
  | image (id : Nat)
  | textButtonFace (downStyle : Bool) (caption : String) (fg bg : Color)
      (font : Nat) (w h : Int)
deriving DecidableEq, Repr

/-- A pygame surface, modelled by abstract content plus its size. -/
structure Surface where
  content : PixelContent
  width : Int
  height : Int
deriving DecidableEq, Repr

def Surface.get_size (s : Surface) : Int × Int := (s.width, s.height)

/-- `pygame.Surface(size)`: a fresh blank surface of the given size. -/
def Surface.new (size : Int × Int) : Surface :=
  { content := .blank, width := size.1, height := size.2 }

/-- `pygame.transform.smoothscale`: same abstract content, new size. -/
def smoothscale (s : Surface) (size : Int × Int) : Surface :=
  { content := s.content, width := size.1, height := size.2 }

/-- A `pygame.Rect`: position and size. -/
structure Rect where
  left : Int
  top : Int
  width : Int
  height : Int
deriving DecidableEq, Repr

def Rect.size (r : Rect) : Int × Int := (r.width, r.height)

/-- `pygame.Rect.collidepoint`: a point is inside if it is at or right of
the left edge, strictly left of the right edge, and likewise vertically. -/
def Rect.collidepoint (r : Rect) (p : Int × Int) : Bool :=
  decide (r.left ≤ p.1) && decide (p.1 < r.left + r.width) &&
  decide (r.top ≤ p.2) && decide (p.2 < r.top + r.height)

/-- The pygame event kinds `handle_event` distinguishes; every other event
type is collapsed into `other`. -/
inductive EventType
  | mouseMotion
  | mouseButtonDown
  | mouseButtonUp
  | other
deriving DecidableEq, Repr

/-- A pygame event object: its `type` and its `pos` attribute. -/
structure Event where
  type : EventType
  pos : Int × Int
deriving DecidableEq, Repr

/-- The signal strings returned by `handle_event`. -/
inductive Signal
  | enter
  | move
  | down
  | up
  | click
  | exit
deriving DecidableEq, Repr

/-- The state of a `PygButton` object: the attributes set by `__init__`.
`origSurfaceNormal`/`origSurfaceDown`/`origSurfaceHighlight` are `Option`
because in the source these attributes are only ever assigned inside
`set_surfaces` (and only for string arguments); `none` means the attribute
does not exist yet, and reading it raises `attributeError`. -/
structure Button where
  rect : Rect
  caption : String
  bgcolor : Color
  fgcolor : Color
  font : Nat
  buttonDown : Bool
  mouseOverButton : Bool
  lastMouseDownOverButton : Bool
  visible : Bool
  customSurfaces : Bool
  surfaceNormal : Surface
  surfaceDown : Surface
  surfaceHighlight : Surface
  origSurfaceNormal : Option Surface
  origSurfaceDown : Option Surface
  origSurfaceHighlight : Option Surface
deriving DecidableEq, Repr

/-- Python errors the embedded methods can raise. -/
inductive PyError
  | imageSizeMismatch
  | attributeError
deriving DecidableEq, Repr

/-- `PygButton._update`, image-mode branch first: re-scale the three
original surfaces to the current rect size; text-mode branch: redraw the
three text-button faces in place (sizes unchanged) and alias the highlight
surface to the normal one, as `self.surfaceHighlight = self.surfaceNormal`
does. -/
def update_surfaces (b : Button) : Button × Option PyError :=
  if b.customSurfaces then
    match b.origSurfaceNormal with
    | none => (b, some .attributeError)
    | some n =>
      let b := { b with surfaceNormal := smoothscale n b.rect.size }
      match b.origSurfaceDown with
      | none => (b, some .attributeError)
      | some d =>
        let b := { b with surfaceDown := smoothscale d b.rect.size }
        match b.origSurfaceHighlight with
        | none => (b, some .attributeError)
        | some h =>
          ({ b with surfaceHighlight := smoothscale h b.rect.size }, none)
  else
    let w := b.rect.width
    let h := b.rect.height
    let sn : Surface := { b.surfaceNormal with
      content := .textButtonFace false b.caption b.fgcolor b.bgcolor b.font w h }
    let sd : Surface := { b.surfaceDown with
      content := .textButtonFace true b.caption b.fgcolor b.bgcolor b.font w h }
    ({ b with surfaceNormal := sn, surfaceDown := sd, surfaceHighlight := sn },
     none)

/-- `PygButton.__init__` for a text button (`normal=None`), with the rect
given explicitly and the remaining parameters at their defaults. -/
def PygButton_init (rect : Rect) : Button :=
  let b : Button := {
    rect := rect
    caption := ""
    bgcolor := LIGHTGRAY
    fgcolor := BLACK
    font := PYGBUTTON_FONT
    buttonDown := false
    mouseOverButton := false
    lastMouseDownOverButton := false
    visible := true
    customSurfaces := false
    surfaceNormal := Surface.new rect.size
    surfaceDown := Surface.new rect.size
    surfaceHighlight := Surface.new rect.size
    origSurfaceNormal := none
    origSurfaceDown := none
    origSurfaceHighlight := none }
  (update_surfaces b).1

/-- `PygButton.handle_event`: returns the mutated button together with the
list of signal strings appended to `ret_val`.  The overridable hooks
(`mouse_enter`, `mouse_move`, ...) are no-ops in the class and add nothing
to the state. -/
def handle_event (b : Button) (e : Event) : Button × List Signal :=
  if (e.type ≠ .mouseMotion ∧ e.type ≠ .mouseButtonUp ∧
      e.type ≠ .mouseButtonDown) ∨ b.visible = false then
    (b, [])
  else
    let inside := b.rect.collidepoint e.pos
    -- lines 158-170: enter detection, exit marking
    let stage1 : Button × List Signal × Bool :=
      if b.mouseOverButton = false ∧ inside = true then
        ({ b with mouseOverButton := true }, [.enter], false)
      else if b.mouseOverButton = true ∧ inside = false then
        ({ b with mouseOverButton := false }, [], true)
      else
        (b, [], false)
    let b1 := stage1.1
    let ret1 := stage1.2.1
    let has_exited := stage1.2.2
    -- lines 172-186: event over / off the button
    let stage2 : Button × List Signal :=
      if inside = true then
        if e.type = .mouseMotion then
          (b1, ret1 ++ [.move])
        else if e.type = .mouseButtonDown then
          ({ b1 with buttonDown := true, lastMouseDownOverButton := true },
           ret1 ++ [.down])
        else
          (b1, ret1)
      else
        if e.type = .mouseButtonUp ∨ e.type = .mouseButtonDown then
          ({ b1 with lastMouseDownOverButton := false }, ret1)
        else
          (b1, ret1)
    let b2 := stage2.1
    let ret2 := stage2.2
    -- lines 188-203: mouse up handling
    let stage3 : Button × List Signal :=
      if e.type = .mouseButtonUp then
        let do_mouse_click := b2.lastMouseDownOverButton
        let b3 := { b2 with lastMouseDownOverButton := false }
        let stage3a : Button × List Signal :=
          if b3.buttonDown = true then
            ({ b3 with buttonDown := false }, ret2 ++ [.up])
          else
            (b3, ret2)
        if do_mouse_click = true then
          ({ stage3a.1 with buttonDown := false }, stage3a.2 ++ [.click])
        else
          stage3a
      else
        (b2, ret2)
    -- lines 205-207: deferred exit
    if has_exited = true then
      (stage3.1, stage3.2 ++ [.exit])
    else
      stage3

/-- Feed a list of events to `handle_event` in order; return the final
button state and the list of returned signal lists, one per event. -/
def runFrom (b : Button) : List Event → Button × List (List Signal)
  | [] => (b, [])
  | e :: es =>
    let step := handle_event b e
    let rest := runFrom step.1 es
    (rest.1, step.2 :: rest.2)

/-- An argument of `set_surfaces`: either an already-decoded surface or a
filename string to load. -/
inductive SurfOrPath
  | surf (s : Surface)
  | path (p : String)
deriving DecidableEq, Repr

/-- The tail of `set_surfaces` after the size check passed (lines 327-334):
assign the three display surfaces from the `origSurface*` attributes, set
`customSurfaces`, and resize the rect to the normal surface's size keeping
its position.  Each `origSurface*` attribute is re-read as in the source;
a missing one raises `attributeError` after the earlier assignments took
effect. -/
def set_surfaces_assign (b : Button) : Button × Option PyError :=
  match b.origSurfaceNormal with
  | none => (b, some .attributeError)
  | some n =>
    let b := { b with surfaceNormal := n }
    match b.origSurfaceDown with
    | none => (b, some .attributeError)
    | some d =>
      let b := { b with surfaceDown := d }
      match b.origSurfaceHighlight with
      | none => (b, some .attributeError)
      | some h =>
        let b := { b with surfaceHighlight := h, customSurfaces := true }
        ({ b with rect := { left := b.rect.left, top := b.rect.top,
                            width := b.surfaceNormal.width,
                            height := b.surfaceNormal.height } }, none)

/-- `PygButton.set_surfaces(normal_surface, down_surface=None,
highlight_surface=None)` with the image loader passed explicitly.

Faithful points: missing down/highlight arguments default to the normal
argument; only string arguments assign the corresponding `origSurface*`
attribute (a plain surface argument leaves it untouched); the size check
is the Python chained comparison
`origSurfaceNormal.get_size() != origSurfaceDown.get_size() !=
origSurfaceHighlight.get_size()`, i.e. it raises only when normal differs
from down AND down differs from highlight, and it short-circuits (the
highlight attribute is only read when the first inequality holds).  The
`origSurface*` assignments happen before the check, so they survive a
raise. -/
def set_surfaces (load : String → Surface) (b : Button)
    (normal_surface : SurfOrPath) (down_arg highlight_arg : Option SurfOrPath) :
    Button × Option PyError :=
  let down_surface := down_arg.getD normal_surface
  let highlight_surface := highlight_arg.getD normal_surface
  let b := match normal_surface with
    | .path p => { b with origSurfaceNormal := some (load p) }
    | .surf _ => b
  let b := match down_surface with
    | .path p => { b with origSurfaceDown := some (load p) }
    | .surf _ => b
  let b := match highlight_surface with
    | .path p => { b with origSurfaceHighlight := some (load p) }
    | .surf _ => b
  match b.origSurfaceNormal, b.origSurfaceDown with
  | some n, some d =>
    if n.get_size ≠ d.get_size then
      match b.origSurfaceHighlight with
      | none => (b, some .attributeError)
      | some h =>
        if d.get_size ≠ h.get_size then
          (b, some .imageSizeMismatch)
        else
          set_surfaces_assign b
    else
      set_surfaces_assign b
  | _, _ => (b, some .attributeError)

/-- `PygButton._prop_set_rect` (the `rect` property setter): the source
calls `self._update()` first and assigns `self._rect = new_rect` after. -/
def prop_set_rect (b : Button) (new_rect : Rect) : Button × Option PyError :=
  let step := update_surfaces b
  match step.2 with
  | some err => (step.1, some err)
  | none => ({ step.1 with rect := new_rect }, none)

/-- C9: an event of an unrelated kind, or any event sent to an invisible
button, is ignored: `handle_event` returns the empty signal list and the
button state is exactly unchanged. -/
theorem c9_irrelevant_event_ignored (b : Button) (e : Event)
    (h : b.visible = false ∨
      (e.type ≠ .mouseMotion ∧ e.type ≠ .mouseButtonDown ∧
       e.type ≠ .mouseButtonUp)) :
    handle_event b e = (b, []) := by
  unfold handle_event
  rcases h with h | ⟨h1, h2, h3⟩
  · rw [if_pos (Or.inr h)]
  · rw [if_pos (Or.inl ⟨h1, h3, h2⟩)]

theorem c9_witness :
    handle_event { PygButton_init ⟨0, 0, 100, 40⟩ with visible := false }
      ⟨.mouseButtonUp, (50, 20)⟩ =
    ({ PygButton_init ⟨0, 0, 100, 40⟩ with visible := false }, []) :=
  c9_irrelevant_event_ignored _ _ (Or.inl rfl)

/-- C10: whenever a single `handle_event` call returns a list containing
`up` or `click`, both `buttonDown` and `lastMouseDownOverButton` are false
in the returned state. -/
theorem c10_up_or_click_clears_flags (b : Button) (e : Event)
    (h : Signal.up ∈ (handle_event b e).2 ∨
         Signal.click ∈ (handle_event b e).2) :
    (handle_event b e).1.buttonDown = false ∧
    (handle_event b e).1.lastMouseDownOverButton = false := by
  obtain ⟨ty, pos⟩ := e
  cases ty <;>
    cases hv : b.visible <;>
    cases hin : b.rect.collidepoint pos <;>
    cases hm : b.mouseOverButton <;>
    cases hbd : b.buttonDown <;>
    cases hl : b.lastMouseDownOverButton <;>
    simp_all [handle_event]

theorem c10_witness :
    Signal.up ∈ (handle_event
      { PygButton_init ⟨0, 0, 100, 40⟩ with
          mouseOverButton := true, buttonDown := true,
          lastMouseDownOverButton := true }
      ⟨.mouseButtonUp, (50, 20)⟩).2 ∧
    (handle_event
      { PygButton_init ⟨0, 0, 100, 40⟩ with
          mouseOverButton := true, buttonDown := true,
          lastMouseDownOverButton := true }
      ⟨.mouseButtonUp, (50, 20)⟩).1.buttonDown = false ∧
    (handle_event
      { PygButton_init ⟨0, 0, 100, 40⟩ with
          mouseOverButton := true, buttonDown := true,
          lastMouseDownOverButton := true }
      ⟨.mouseButtonUp, (50, 20)⟩).1.lastMouseDownOverButton = false :=
  ⟨by decide, c10_up_or_click_clears_flags _ _ (Or.inl (by decide))⟩

/-- C6: in any single `handle_event` return value that contains both `up`
and `click`, the `up` signal comes before the `click` signal. -/
theorem c6_up_before_click (b : Button) (e : Event)
    (hu : Signal.up ∈ (handle_event b e).2)
    (hc : Signal.click ∈ (handle_event b e).2) :
    [Signal.up, Signal.click].Sublist (handle_event b e).2 := by
  obtain ⟨ty, pos⟩ := e
  cases ty <;>
    cases hv : b.visible <;>
    cases hin : b.rect.collidepoint pos <;>
    cases hm : b.mouseOverButton <;>
    cases hbd : b.buttonDown <;>
    cases hl : b.lastMouseDownOverButton <;>
    simp_all [handle_event]

theorem c6_witness :
    Signal.up ∈ (handle_event
      { PygButton_init ⟨0, 0, 100, 40⟩ with
          mouseOverButton := true, buttonDown := true,
          lastMouseDownOverButton := true }
      ⟨.mouseButtonUp, (50, 20)⟩).2 ∧
    Signal.click ∈ (handle_event
      { PygButton_init ⟨0, 0, 100, 40⟩ with
          mouseOverButton := true, buttonDown := true,
          lastMouseDownOverButton := true }
      ⟨.mouseButtonUp, (50, 20)⟩).2 ∧
    [Signal.up, Signal.click].Sublist (handle_event
      { PygButton_init ⟨0, 0, 100, 40⟩ with
          mouseOverButton := true, buttonDown := true,
          lastMouseDownOverButton := true }
      ⟨.mouseButtonUp, (50, 20)⟩).2 :=
  ⟨by decide, by decide, c6_up_before_click _ _ (by decide) (by decide)⟩

/-- C4 counterexample: for an invisible button whose
`lastMouseDownOverButton` flag is set, a pointer-release event leaves the
flag set (the method returns before reaching the code that clears it), so
the claim fails for invisible buttons. -/
theorem c4_counterexample :
    (Event.mk .mouseButtonUp (50, 20)).type = EventType.mouseButtonUp ∧
    (handle_event
      { PygButton_init ⟨0, 0, 100, 40⟩ with
          visible := false, lastMouseDownOverButton := true }
      ⟨.mouseButtonUp, (50, 20)⟩).1.lastMouseDownOverButton = true := by
  decide

/-- C4 amended: for every visible button state and every pointer-release
event, `lastMouseDownOverButton` is false after `handle_event` processes
the event, wherever the release occurred. -/
theorem c4_amended_visible_release_clears_pending (b : Button) (e : Event)
    (hv : b.visible = true) (ht : e.type = .mouseButtonUp) :
    (handle_event b e).1.lastMouseDownOverButton = false := by
  obtain ⟨ty, pos⟩ := e
  cases ty <;> simp_all
  cases hin : b.rect.collidepoint pos <;>
    cases hm : b.mouseOverButton <;>
    cases hbd : b.buttonDown <;>
    cases hl : b.lastMouseDownOverButton <;>
    simp_all [handle_event]

theorem c4_amended_witness :
    (PygButton_init ⟨0, 0, 100, 40⟩).visible = true ∧
    (Event.mk .mouseButtonUp (200, 200)).type = EventType.mouseButtonUp ∧
    (handle_event (PygButton_init ⟨0, 0, 100, 40⟩)
      ⟨.mouseButtonUp, (200, 200)⟩).1.lastMouseDownOverButton = false :=
  ⟨by decide, by decide,
    c4_amended_visible_release_clears_pending _ _ (by decide) rfl⟩

/-- C1: the size check in `set_surfaces` is the Python chained comparison
`a != b != c`, which tests `a != b and b != c`.  With normal and down the
same size but highlight a different size, the three resulting images do
not all have equal dimensions, yet no error is raised: the call succeeds.
This contradicts the method's own docstring ("The normal, down, and
highlight Surface objects must all be the same size as each other"). -/
theorem c1_mismatch_not_raised :
    ((set_surfaces
      (fun p => if p = "n" then ⟨.image 1, 10, 10⟩
                else if p = "d" then ⟨.image 2, 10, 10⟩
                else ⟨.image 3, 20, 20⟩)
      (PygButton_init ⟨0, 0, 30, 60⟩)
      (.path "n") (some (.path "d")) (some (.path "h"))).2 = none) ∧
    ¬ ((Surface.get_size ⟨.image 1, 10, 10⟩ =
          Surface.get_size ⟨.image 2, 10, 10⟩) ∧
       (Surface.get_size ⟨.image 2, 10, 10⟩ =
          Surface.get_size ⟨.image 3, 20, 20⟩)) := by
  decide

/-- C2 counterexample: for a visible button with rect `(0,0,100,40)` in
the idle state, the sequence `[down(200,200), move(50,20), up(50,20)]`
returns `[]`, `[enter, move]`, `[]`: the third call returns a list that
does not contain `up` (since the press happened outside the rectangle,
`buttonDown` was never set), contradicting the claim that it contains
`up`. -/
theorem c2_counterexample :
    ((runFrom (PygButton_init ⟨0, 0, 100, 40⟩)
      [⟨.mouseButtonDown, (200, 200)⟩, ⟨.mouseMotion, (50, 20)⟩,
       ⟨.mouseButtonUp, (50, 20)⟩]).2 =
      [[], [.enter, .move], []]) ∧
    Signal.up ∉ ((runFrom (PygButton_init ⟨0, 0, 100, 40⟩)
      [⟨.mouseButtonDown, (200, 200)⟩, ⟨.mouseMotion, (50, 20)⟩,
       ⟨.mouseButtonUp, (50, 20)⟩]).2.getD 2 []) := by
  decide

/-- C2 amended: the same scenario returns `[]` for the first event,
`[enter, move]` for the second, and the empty list (containing neither
`up` nor `click`) for the third. -/
theorem c2_amended_scenario :
    (runFrom (PygButton_init ⟨0, 0, 100, 40⟩)
      [⟨.mouseButtonDown, (200, 200)⟩, ⟨.mouseMotion, (50, 20)⟩,
       ⟨.mouseButtonUp, (50, 20)⟩]).2 =
      [[], [.enter, .move], []] := by
  decide

/-- C3 counterexample: a `set_surfaces` call that fails with the
size-mismatch error does not leave the button state untouched: starting
from a freshly constructed text button (whose `origSurface*` attributes do
not exist), loading three images of sizes 10x10, 20x20, 30x30 raises the
error, but the button's stored source images were already assigned before
the check. -/
theorem c3_counterexample :
    ((set_surfaces
      (fun p => if p = "a" then ⟨.image 1, 10, 10⟩
                else if p = "b" then ⟨.image 2, 20, 20⟩
                else ⟨.image 3, 30, 30⟩)
      (PygButton_init ⟨0, 0, 30, 60⟩)
      (.path "a") (some (.path "b")) (some (.path "c"))).2
      = some .imageSizeMismatch) ∧
    (set_surfaces
      (fun p => if p = "a" then ⟨.image 1, 10, 10⟩
                else if p = "b" then ⟨.image 2, 20, 20⟩
                else ⟨.image 3, 30, 30⟩)
      (PygButton_init ⟨0, 0, 30, 60⟩)
      (.path "a") (some (.path "b")) (some (.path "c"))).1
      ≠ PygButton_init ⟨0, 0, 30, 60⟩ := by
  decide

/-- Helper for C3: the success tail of `set_surfaces` never raises the
size-mismatch error itself. -/
theorem set_surfaces_assign_no_mismatch (b : Button) :
    (set_surfaces_assign b).2 ≠ some PyError.imageSizeMismatch := by
  unfold set_surfaces_assign
  rcases b.origSurfaceNormal with _ | n <;> simp
  rcases b.origSurfaceDown with _ | d <;> simp
  rcases b.origSurfaceHighlight with _ | h <;> simp

/-- C3 amended: a `set_surfaces` call that fails with the size-mismatch
error leaves the rectangle, the mode flag, the three display surfaces and
every other attribute unchanged, EXCEPT the stored source images
(`origSurface*`), which are assigned from string arguments before the size
check runs and keep their new values when the error is raised. -/
theorem c3_amended_failure_preserves_core_state
    (load : String → Surface) (b : Button) (ns : SurfOrPath)
    (da ha : Option SurfOrPath) (b' : Button)
    (h : set_surfaces load b ns da ha = (b', some .imageSizeMismatch)) :
    b'.rect = b.rect ∧ b'.caption = b.caption ∧ b'.bgcolor = b.bgcolor ∧
    b'.fgcolor = b.fgcolor ∧ b'.font = b.font ∧
    b'.buttonDown = b.buttonDown ∧
    b'.mouseOverButton = b.mouseOverButton ∧
    b'.lastMouseDownOverButton = b.lastMouseDownOverButton ∧
    b'.visible = b.visible ∧ b'.customSurfaces = b.customSurfaces ∧
    b'.surfaceNormal = b.surfaceNormal ∧
    b'.surfaceDown = b.surfaceDown ∧
    b'.surfaceHighlight = b.surfaceHighlight := by
  unfold set_surfaces at h
  rcases ns with s | p <;>
    rcases da with _ | (s2 | p2) <;>
    rcases ha with _ | (s3 | p3) <;>
    simp only [Option.getD] at h <;>
    (repeat' split at h) <;>
    first
      | exact absurd (congrArg Prod.snd h)
          (set_surfaces_assign_no_mismatch _)
      | (injection h with h1 h2; subst h1; simp)

theorem c3_amended_witness :
    (set_surfaces
      (fun p => if p = "a" then ⟨.image 1, 10, 10⟩
                else if p = "b" then ⟨.image 2, 20, 20⟩
                else ⟨.image 3, 30, 30⟩)
      (PygButton_init ⟨0, 0, 30, 60⟩)
      (.path "a") (some (.path "b")) (some (.path "c"))
      = ({ PygButton_init ⟨0, 0, 30, 60⟩ with
            origSurfaceNormal := some ⟨.image 1, 10, 10⟩
            origSurfaceDown := some ⟨.image 2, 20, 20⟩
            origSurfaceHighlight := some ⟨.image 3, 30, 30⟩ },
         some .imageSizeMismatch)) ∧
    ({ PygButton_init ⟨0, 0, 30, 60⟩ with
        origSurfaceNormal := some ⟨.image 1, 10, 10⟩
        origSurfaceDown := some ⟨.image 2, 20, 20⟩
        origSurfaceHighlight := some ⟨.image 3, 30, 30⟩ } : Button).rect
      = (PygButton_init ⟨0, 0, 30, 60⟩).rect := by
  refine ⟨by decide, ?_⟩
  exact (c3_amended_failure_preserves_core_state
    (fun p => if p = "a" then ⟨.image 1, 10, 10⟩
              else if p = "b" then ⟨.image 2, 20, 20⟩
              else ⟨.image 3, 30, 30⟩)
    (PygButton_init ⟨0, 0, 30, 60⟩)
    (.path "a") (some (.path "b")) (some (.path "c"))
    ({ PygButton_init ⟨0, 0, 30, 60⟩ with
        origSurfaceNormal := some ⟨.image 1, 10, 10⟩
        origSurfaceDown := some ⟨.image 2, 20, 20⟩
        origSurfaceHighlight := some ⟨.image 3, 30, 30⟩ })
    (by decide)).1

/-- C8: assigning a new rectangle through the `rect` property setter calls
`_update()` BEFORE storing the new rectangle, so in image mode the three
display surfaces are re-scaled to the OLD rectangle's size, not the newly
assigned one.  Concretely: an image-mode button with rect `(0,0,30,60)`
and 30x60 source images, assigned rect `(0,0,100,40)`, ends with rect
`(0,0,100,40)` but a normal surface of size 30x60, not 100x40. -/
theorem c8_set_rect_scales_to_old_size :
    ((prop_set_rect
      { PygButton_init ⟨0, 0, 30, 60⟩ with
          customSurfaces := true
          origSurfaceNormal := some ⟨.image 1, 30, 60⟩
          origSurfaceDown := some ⟨.image 2, 30, 60⟩
          origSurfaceHighlight := some ⟨.image 3, 30, 60⟩ }
      ⟨0, 0, 100, 40⟩).1.rect = ⟨0, 0, 100, 40⟩) ∧
    ((prop_set_rect
      { PygButton_init ⟨0, 0, 30, 60⟩ with
          customSurfaces := true
          origSurfaceNormal := some ⟨.image 1, 30, 60⟩
          origSurfaceDown := some ⟨.image 2, 30, 60⟩
          origSurfaceHighlight := some ⟨.image 3, 30, 60⟩ }
      ⟨0, 0, 100, 40⟩).1.surfaceNormal.get_size = (30, 60)) ∧
    ((30, 60) ≠ ((100 : Int), (40 : Int))) := by
  decide

/-! Preservation lemmas: `handle_event` never touches the rectangle or
the visibility flag, and `runFrom` therefore preserves them too. -/

theorem handle_event_rect (b : Button) (e : Event) :
    (handle_event b e).1.rect = b.rect := by
  obtain ⟨ty, pos⟩ := e
  cases ty <;>
    cases hv : b.visible <;>
    cases hin : b.rect.collidepoint pos <;>
    cases hm : b.mouseOverButton <;>
    cases hbd : b.buttonDown <;>
    cases hl : b.lastMouseDownOverButton <;>
    simp_all [handle_event]

theorem handle_event_visible (b : Button) (e : Event) :
    (handle_event b e).1.visible = b.visible := by
  obtain ⟨ty, pos⟩ := e
  cases ty <;>
    cases hv : b.visible <;>
    cases hin : b.rect.collidepoint pos <;>
    cases hm : b.mouseOverButton <;>
    cases hbd : b.buttonDown <;>
    cases hl : b.lastMouseDownOverButton <;>
    simp_all [handle_event]

theorem runFrom_rect (events : List Event) :
    ∀ b : Button, (runFrom b events).1.rect = b.rect := by
  induction events with
  | nil => intro b; rfl
  | cons e es ih =>
    intro b
    simp only [runFrom]
    rw [ih, handle_event_rect]

theorem runFrom_visible (events : List Event) :
    ∀ b : Button, (runFrom b events).1.visible = b.visible := by
  induction events with
  | nil => intro b; rfl
  | cons e es ih =>
    intro b
    simp only [runFrom]
    rw [ih, handle_event_visible]

theorem runFrom_fst_append (xs ys : List Event) :
    ∀ b : Button,
      (runFrom b (xs ++ ys)).1 = (runFrom (runFrom b xs).1 ys).1 := by
  induction xs with
  | nil => intro b; rfl
  | cons e es ih =>
    intro b
    simp only [List.cons_append, runFrom]
    exact ih _

/-! Lemmas about the `lastMouseDownOverButton` flag, for C5. -/

/-- A press event outside the rectangle, processed by a visible button,
always leaves `lastMouseDownOverButton` false. -/
theorem flag_false_after_down_outside (b : Button) (e : Event)
    (hv : b.visible = true) (ht : e.type = .mouseButtonDown)
    (hp : b.rect.collidepoint e.pos = false) :
    (handle_event b e).1.lastMouseDownOverButton = false := by
  obtain ⟨ty, pos⟩ := e
  cases ty <;>
    cases hm : b.mouseOverButton <;>
    cases hbd : b.buttonDown <;>
    cases hl : b.lastMouseDownOverButton <;>
    simp_all [handle_event]

/-- The only statement that sets `lastMouseDownOverButton` to true is the
press-inside branch, so any other event keeps the flag false. -/
theorem flag_false_preserved (b : Button) (e : Event)
    (hl : b.lastMouseDownOverButton = false)
    (hnd : ¬(e.type = .mouseButtonDown ∧ b.rect.collidepoint e.pos = true)) :
    (handle_event b e).1.lastMouseDownOverButton = false := by
  obtain ⟨ty, pos⟩ := e
  cases ty <;>
    cases hv : b.visible <;>
    cases hin : b.rect.collidepoint pos <;>
    cases hm : b.mouseOverButton <;>
    cases hbd : b.buttonDown <;>
    simp_all [handle_event]

/-- `click` can only be emitted when `lastMouseDownOverButton` was true at
the start of the call. -/
theorem click_needs_flag (b : Button) (e : Event)
    (hl : b.lastMouseDownOverButton = false) :
    Signal.click ∉ (handle_event b e).2 := by
  obtain ⟨ty, pos⟩ := e
  cases ty <;>
    cases hv : b.visible <;>
    cases hin : b.rect.collidepoint pos <;>
    cases hm : b.mouseOverButton <;>
    cases hbd : b.buttonDown <;>
    simp_all [handle_event]

/-- Running a list of events none of which is a press inside the current
rectangle keeps `lastMouseDownOverButton` false. -/
theorem runFrom_flag_false (events : List Event) :
    ∀ b : Button, b.lastMouseDownOverButton = false →
      (∀ e ∈ events,
        ¬(e.type = .mouseButtonDown ∧ b.rect.collidepoint e.pos = true)) →
      (runFrom b events).1.lastMouseDownOverButton = false := by
  induction events with
  | nil => intro b hl _; exact hl
  | cons e es ih =>
    intro b hl hev
    simp only [runFrom]
    apply ih
    · exact flag_false_preserved b e hl (hev e (by simp))
    · intro e' he'
      rw [handle_event_rect]
      exact hev e' (by simp [he'])

/-- C5 counterexample to the literal claim: with rect `(0,0,100,40)` and
events `[down(200,200), down(50,20), up(50,20)]`, the first press is
outside the rectangle, the next release (the third event, no release in
between) is inside, yet that release returns a list containing `click`,
because the intervening press inside the rectangle re-armed the flag. -/
theorem c5_counterexample :
    ((Event.mk .mouseButtonDown (200, 200)).type =
        EventType.mouseButtonDown ∧
      Rect.collidepoint ⟨0, 0, 100, 40⟩ (200, 200) = false) ∧
    ((Event.mk .mouseButtonUp (50, 20)).type = EventType.mouseButtonUp ∧
      Rect.collidepoint ⟨0, 0, 100, 40⟩ (50, 20) = true) ∧
    (∀ e ∈ [Event.mk .mouseButtonDown (50, 20)],
      e.type ≠ EventType.mouseButtonUp) ∧
    Signal.click ∈
      (handle_event
        ((runFrom (PygButton_init ⟨0, 0, 100, 40⟩)
          [⟨.mouseButtonDown, (200, 200)⟩,
           ⟨.mouseButtonDown, (50, 20)⟩]).1)
        ⟨.mouseButtonUp, (50, 20)⟩).2 := by
  decide

/-- C5 amended: starting from the initial state, if a press event occurs
outside the rectangle and the next release event occurs inside it, and no
intervening event is a press inside the rectangle, then that release never
returns `click`. -/
theorem c5_amended_outside_press_no_click (r : Rect) (l₁ l₂ : List Event)
    (edown eup : Event)
    (h1 : edown.type = .mouseButtonDown)
    (h2 : r.collidepoint edown.pos = false)
    (_h3 : eup.type = .mouseButtonUp)
    (_h4 : r.collidepoint eup.pos = true)
    (_h5 : ∀ e ∈ l₂, e.type ≠ EventType.mouseButtonUp)
    (h6 : ∀ e ∈ l₂,
      ¬(e.type = .mouseButtonDown ∧ r.collidepoint e.pos = true)) :
    Signal.click ∉
      (handle_event
        ((runFrom (PygButton_init r) (l₁ ++ edown :: l₂)).1) eup).2 := by
  apply click_needs_flag
  have hsplit : (runFrom (PygButton_init r) (l₁ ++ edown :: l₂)).1
      = (runFrom
          (handle_event ((runFrom (PygButton_init r) l₁).1) edown).1 l₂).1 := by
    rw [runFrom_fst_append]
    rfl
  rw [hsplit]
  have hrect_a : ((runFrom (PygButton_init r) l₁).1).rect = r := by
    rw [runFrom_rect]; rfl
  have hvis_a : ((runFrom (PygButton_init r) l₁).1).visible = true := by
    rw [runFrom_visible]; rfl
  have hflag_b :
      Button.lastMouseDownOverButton
        (handle_event ((runFrom (PygButton_init r) l₁).1) edown).1 = false :=
    flag_false_after_down_outside _ _ hvis_a h1 (by rw [hrect_a]; exact h2)
  have hrect_b :
      (handle_event ((runFrom (PygButton_init r) l₁).1) edown).1.rect = r := by
    rw [handle_event_rect, hrect_a]
  refine runFrom_flag_false l₂ _ hflag_b ?_
  intro e' he'
  rw [hrect_b]
  exact h6 e' he'

theorem c5_amended_witness :
    ((Event.mk .mouseButtonDown (200, 200)).type =
        EventType.mouseButtonDown ∧
      Rect.collidepoint ⟨0, 0, 100, 40⟩ (200, 200) = false ∧
      (Event.mk .mouseButtonUp (50, 20)).type = EventType.mouseButtonUp ∧
      Rect.collidepoint ⟨0, 0, 100, 40⟩ (50, 20) = true) ∧
    Signal.click ∉
      (handle_event
        ((runFrom (PygButton_init ⟨0, 0, 100, 40⟩)
          ([] ++ ⟨.mouseButtonDown, (200, 200)⟩ :: [])).1)
        ⟨.mouseButtonUp, (50, 20)⟩).2 :=
  ⟨by decide,
    c5_amended_outside_press_no_click ⟨0, 0, 100, 40⟩ [] []
      ⟨.mouseButtonDown, (200, 200)⟩ ⟨.mouseButtonUp, (50, 20)⟩
      (by decide) (by decide) (by decide) (by decide)
      (by simp) (by simp)⟩

/-! Machinery for C7: the `enter`/`exit` signals in the concatenated
output stream strictly alternate, tracking `mouseOverButton`. -/

/-- Selects the `enter` and `exit` signals of an output stream. -/
def isEnterOrExit (s : Signal) : Bool :=
  (s == Signal.enter) || (s == Signal.exit)

/-- Single-step characterisation: one `handle_event` call contributes
`[enter]`, `[exit]` or nothing to the enter/exit stream, according to how
`mouseOverButton` changes across the call. -/
theorem filter_enter_exit_step (b : Button) (e : Event) :
    ((handle_event b e).2).filter isEnterOrExit =
      (match b.mouseOverButton, (handle_event b e).1.mouseOverButton with
       | false, true => [Signal.enter]
       | true, false => [Signal.exit]
       | _, _ => []) := by
  obtain ⟨ty, pos⟩ := e
  cases ty <;>
    cases hv : b.visible <;>
    cases hin : b.rect.collidepoint pos <;>
    cases hm : b.mouseOverButton <;>
    cases hbd : b.buttonDown <;>
    cases hl : b.lastMouseDownOverButton <;>
    simp_all [handle_event, isEnterOrExit]

/-- A signal list strictly alternates between `enter` and `exit`,
starting with `enter` when the tracked hover flag is false and with
`exit` when it is true. -/
def altFrom : Bool → List Signal → Prop
  | _, [] => True
  | false, s :: rest => s = Signal.enter ∧ altFrom true rest
  | true, s :: rest => s = Signal.exit ∧ altFrom false rest

/-- The enter/exit stream produced by any event sequence alternates,
starting from the current `mouseOverButton` value. -/
theorem runFrom_altFrom (events : List Event) :
    ∀ b : Button,
      altFrom b.mouseOverButton
        (((runFrom b events).2.flatten).filter isEnterOrExit) := by
  induction events with
  | nil => intro b; simp [runFrom, altFrom]
  | cons e es ih =>
    intro b
    have ih' := ih (handle_event b e).1
    have hstep := filter_enter_exit_step b e
    simp only [runFrom, List.flatten_cons, List.filter_append]
    rcases h2 : (handle_event b e).1.mouseOverButton <;>
      rw [h2] at ih' <;>
      rcases h1 : b.mouseOverButton <;>
      rw [h1, h2] at hstep <;>
      rw [hstep]
    · exact ih'
    · exact ⟨rfl, ih'⟩
    · exact ⟨rfl, ih'⟩
    · exact ih'

/-- In an alternating list, everything after an `enter` alternates
starting from the hovered state. -/
theorem altFrom_append_enter (xs : List Signal) :
    ∀ (b : Bool) (ys : List Signal),
      altFrom b (xs ++ Signal.enter :: ys) → altFrom true ys := by
  induction xs with
  | nil =>
    intro b ys h
    cases b
    · exact h.2
    · exact absurd h.1 (by simp [altFrom])
  | cons x xs ih =>
    intro b ys h
    cases b
    · exact ih true ys h.2
    · exact ih false ys h.2

/-- C7: starting from the initial state, the concatenation of all signal
lists returned by `handle_event` never contains two `enter` signals
without an `exit` strictly between them. -/
theorem c7_no_double_enter (r : Rect) (events : List Event)
    (l₁ l₂ l₃ : List Signal)
    (h : ((runFrom (PygButton_init r) events).2).flatten
        = l₁ ++ Signal.enter :: (l₂ ++ Signal.enter :: l₃)) :
    Signal.exit ∈ l₂ := by
  have halt := runFrom_altFrom events (PygButton_init r)
  have hinit : (PygButton_init r).mouseOverButton = false := rfl
  rw [hinit, h] at halt
  rw [List.filter_append, List.filter_cons] at halt
  simp only [isEnterOrExit] at halt
  rw [List.filter_append, List.filter_cons] at halt
  simp only [isEnterOrExit] at halt
  norm_num at halt
  have halt2 := altFrom_append_enter _ _ _ halt
  rcases hf : List.filter isEnterOrExit l₂ with _ | ⟨y, ys⟩
  · rw [hf] at halt2
    exact absurd halt2.1 (by simp [altFrom])
  · rw [hf] at halt2
    have hy : y = Signal.exit := by
      rw [List.cons_append] at halt2
      exact halt2.1
    have : y ∈ List.filter isEnterOrExit l₂ := by
      rw [hf]; exact List.mem_cons_self y ys
    rw [hy] at this
    exact List.mem_of_mem_filter this

theorem c7_witness :
    (((runFrom (PygButton_init ⟨0, 0, 100, 40⟩)
      [⟨.mouseMotion, (50, 20)⟩, ⟨.mouseMotion, (200, 200)⟩,
       ⟨.mouseMotion, (50, 20)⟩]).2).flatten
      = [] ++ Signal.enter :: ([Signal.move, Signal.exit] ++
          Signal.enter :: [Signal.move])) ∧
    Signal.exit ∈ [Signal.move, Signal.exit] :=
  ⟨by decide,
    c7_no_double_enter ⟨0, 0, 100, 40⟩
      [⟨.mouseMotion, (50, 20)⟩, ⟨.mouseMotion, (200, 200)⟩,
       ⟨.mouseMotion, (50, 20)⟩]
      [] [Signal.move, Signal.exit] [Signal.move] (by decide)⟩
